import Mathlib

/-!
# MeetingRoomBooker — verification of the server's core logic

Shallow embedding of the server side of the MeetingRoomBooker portal:
the relational rows of `shared/schema.ts`, the storage operations of
`server/storage.ts` (availability checking, stats aggregation, room and
booking CRUD, auth-config mutation), the booking route handlers of
`server/routes.ts`, and the LDAP authentication flow of the auth service.

Database tables are modeled as Lean lists of row structures; `time`,
`date` and `varchar` columns are strings compared lexicographically,
exactly as the source compares them; `timestamp` columns are `Nat`;
`jsonb` blobs are kept opaque as strings.  Asynchronous effects are
sequentialized: each handler is a pure function from a database state
(plus the oracles for external services) to a result and a new state.
-/

/-- Row of the `rooms` table (`shared/schema.ts`): id, name, floor,
equipment list, soft-delete flag, timestamps. -/
structure Room where
  id : Nat
  name : String
  floor : String
  equipment : List String
  isActive : Bool
  createdAt : Nat
  updatedAt : Nat
  deriving DecidableEq

/-- Row of the `bookings` table (`shared/schema.ts`).  `date` is an ISO
date string, `startTime`/`endTime` are time-of-day strings, `status` is
`"confirmed"` or `"cancelled"`. -/
structure Booking where
  id : Nat
  title : String
  description : Option String
  userId : String
  roomId : Nat
  date : String
  startTime : String
  endTime : String
  attendees : List String
  status : String
  createdAt : Nat
  updatedAt : Nat
  deriving DecidableEq

/-- Row of the `users` table (`shared/schema.ts`). -/
structure User where
  id : String
  username : Option String
  email : Option String
  password : Option String
  firstName : Option String
  lastName : Option String
  profileImageUrl : Option String
  role : String
  authType : String
  createdAt : Nat
  updatedAt : Nat
  deriving DecidableEq

/-- Row of the `auth_config` table (`shared/schema.ts`); the `jsonb`
config blob is modeled opaquely as a string. -/
structure AuthConfigRow where
  id : Nat
  authType : String
  isActive : Bool
  config : String
  createdAt : Nat
  updatedAt : Nat
  deriving DecidableEq

/-- The relational store, plus the serial-id counters of the
`bookings` and `auth_config` tables. -/
structure DbState where
  users : List User
  rooms : List Room
  bookings : List Booking
  authConfigs : List AuthConfigRow
  nextBookingId : Nat
  nextAuthConfigId : Nat
  deriving DecidableEq

/-- JS truthiness of the optional numeric `excludeBookingId` argument:
`undefined` and `0` are both falsy in `if (excludeBookingId)`. -/
def optNatTruthy : Option Nat → Bool
  | none => false
  | some n => n != 0

/-- Executable lexicographic `<` on strings, as JS compares time and
date strings; computes on the underlying character lists. -/
def strLtb (a b : String) : Bool :=
  decide (a.toList < b.toList)

/-- Executable lexicographic `≤` on strings: `a <= b` is `!(b < a)`. -/
def strLeb (a b : String) : Bool :=
  ! strLtb b a

theorem strLtb_eq_decide (a b : String) : strLtb a b = decide (a < b) := by
  rw [strLtb]
  exact decide_eq_decide.mpr String.lt_iff_toList_lt.symm

theorem strLeb_eq_decide (a b : String) : strLeb a b = decide (a ≤ b) := by
  rw [strLeb, strLtb_eq_decide, ← decide_not]
  exact decide_eq_decide.mpr not_lt

/-- The three overlap tests from `DatabaseStorage.checkRoomAvailability`
(`server/storage.ts`), in source order: new start falls inside the
existing interval, new end falls inside it, or the new interval contains
the existing one.  Time-of-day strings are compared lexicographically,
as JS compares them. -/
def timesOverlap (startTime endTime bookingStart bookingEnd : String) : Bool :=
  (strLeb bookingStart startTime && strLtb startTime bookingEnd) ||
  (strLtb bookingStart endTime && strLeb endTime bookingEnd) ||
  (strLeb startTime bookingStart && strLeb bookingEnd endTime)

/-- `DatabaseStorage.checkRoomAvailability` (`server/storage.ts`).
Both SQL branches fetch every `confirmed` booking for `(roomId, date)`
(the `eq(bookings.id, excludeBookingId)` condition is pushed and then
sliced off again); the in-memory loop then skips the excluded booking
and returns `false` on the first time conflict. -/
def checkRoomAvailability (allBookings : List Booking) (roomId : Nat)
    (date startTime endTime : String) (excludeBookingId : Option Nat) : Bool :=
  let conflictingBookings := allBookings.filter fun b =>
    b.roomId == roomId && b.date == date && b.status == "confirmed"
  conflictingBookings.all fun booking =>
    if optNatTruthy excludeBookingId && excludeBookingId == some booking.id then
      true
    else
      ! timesOverlap startTime endTime booking.startTime booking.endTime

/-- Half-open intervals `[s, e)` and `[bs, be)` over lexicographically
ordered time strings intersect. -/
def halfOpenOverlap (s e bs be : String) : Prop :=
  bs < e ∧ s < be

/-- For well-formed intervals the source's three overlap conditions are
exactly half-open interval intersection. -/
theorem timesOverlap_iff_halfOpenOverlap (s e bs be : String)
    (h1 : s < e) (h2 : bs < be) :
    timesOverlap s e bs be = true ↔ halfOpenOverlap s e bs be := by
  simp only [timesOverlap, halfOpenOverlap, strLtb_eq_decide, strLeb_eq_decide,
    Bool.or_eq_true, Bool.and_eq_true, decide_eq_true_eq, not_lt]
  constructor
  · rintro ((⟨ha, hb⟩ | ⟨ha, hb⟩) | ⟨ha, hb⟩)
    · exact ⟨lt_of_le_of_lt ha h1, hb⟩
    · exact ⟨ha, lt_of_lt_of_le h1 hb⟩
    · exact ⟨lt_of_lt_of_le h2 hb, lt_of_le_of_lt ha h2⟩
  · rintro ⟨hA, hB⟩
    rcases le_or_lt bs s with h | h
    · exact Or.inl (Or.inl ⟨h, hB⟩)
    · rcases le_or_lt be e with h' | h'
      · exact Or.inr ⟨le_of_lt h, h'⟩
      · exact Or.inl (Or.inr ⟨hA, le_of_lt h'⟩)

/-- C1: `checkRoomAvailability` returns `false` exactly when some
non-excluded `confirmed` booking on the same room and date overlaps the
requested half-open interval.  Intervals are assumed well-formed
(`start < end`), which upstream validation guarantees, and the exclusion
id — when supplied — is a real serial id (non-zero), since
`if (excludeBookingId)` treats `0` as absent. -/
theorem checkRoomAvailability_false_iff_overlap (allBookings : List Booking)
    (roomId : Nat) (date startTime endTime : String) (excludeBookingId : Option Nat)
    (hreq : startTime < endTime)
    (hwf : ∀ b ∈ allBookings, b.startTime < b.endTime)
    (hexc : excludeBookingId ≠ some 0) :
    checkRoomAvailability allBookings roomId date startTime endTime excludeBookingId = false ↔
      ∃ b ∈ allBookings, b.roomId = roomId ∧ b.date = date ∧ b.status = "confirmed" ∧
        excludeBookingId ≠ some b.id ∧
        halfOpenOverlap startTime endTime b.startTime b.endTime := by
  simp only [checkRoomAvailability]
  rw [List.all_eq_false]
  constructor
  · rintro ⟨b, hmem, hfb⟩
    rw [List.mem_filter] at hmem
    obtain ⟨hb, hcond⟩ := hmem
    simp only [Bool.and_eq_true, beq_iff_eq] at hcond
    obtain ⟨⟨hr, hd⟩, hs⟩ := hcond
    by_cases hid : excludeBookingId = some b.id
    · exfalso
      apply hfb
      have hnz : b.id ≠ 0 := by
        rintro h0
        apply hexc
        rw [hid, h0]
      simp [hid, optNatTruthy, hnz]
    · refine ⟨b, hb, hr, hd, hs, hid, ?_⟩
      have hov : timesOverlap startTime endTime b.startTime b.endTime = true := by
        by_contra hno
        apply hfb
        simp only [Bool.not_eq_true] at hno
        simp [hno, hid, beq_iff_eq]
      exact (timesOverlap_iff_halfOpenOverlap _ _ _ _ hreq (hwf b hb)).mp hov
  · rintro ⟨b, hb, hr, hd, hs, hid, hov⟩
    refine ⟨b, ?_, ?_⟩
    · rw [List.mem_filter]
      exact ⟨hb, by simp [hr, hd, hs]⟩
    · have hov' := (timesOverlap_iff_halfOpenOverlap _ _ _ _ hreq (hwf b hb)).mpr hov
      simp [hid, hov', beq_iff_eq]

/-- A confirmed 09:00–10:00 booking on room 1. -/
def sampleBooking : Booking :=
  { id := 1, title := "Standup", description := none, userId := "u1", roomId := 1,
    date := "2024-01-10", startTime := "09:00", endTime := "10:00", attendees := [],
    status := "confirmed", createdAt := 0, updatedAt := 0 }

/-- A confirmed 10:00–11:00 booking on room 1, touching `sampleBooking`
at the 10:00 boundary. -/
def adjacentBooking : Booking :=
  { id := 2, title := "Review", description := none, userId := "u2", roomId := 1,
    date := "2024-01-10", startTime := "10:00", endTime := "11:00", attendees := [],
    status := "confirmed", createdAt := 0, updatedAt := 0 }

/-- Witness for C1: a 09:30–10:30 request against the 09:00–10:00
booking is reported unavailable. -/
theorem checkRoomAvailability_false_iff_overlap_witness :
    checkRoomAvailability [sampleBooking] 1 "2024-01-10" "09:30" "10:30" none = false :=
  (checkRoomAvailability_false_iff_overlap [sampleBooking] 1 "2024-01-10" "09:30" "10:30"
      none (String.lt_iff_toList_lt.mpr (by decide))
      (by
        intro b hb
        rw [List.mem_singleton] at hb
        subst hb
        exact String.lt_iff_toList_lt.mpr (by decide))
      (by decide)).mpr
    ⟨sampleBooking, by decide, rfl, rfl, rfl, by decide,
      String.lt_iff_toList_lt.mpr (by decide), String.lt_iff_toList_lt.mpr (by decide)⟩

/-- C2: passing a booking's own id as `excludeBookingId` prevents
self-rejection — re-checking a confirmed booking's own slot succeeds,
provided no *other* confirmed booking on the room and date conflicts.
The id is a real serial id (non-zero). -/
theorem checkRoomAvailability_excludes_self (allBookings : List Booking) (B : Booking)
    (hid : B.id ≠ 0)
    (hothers : ∀ b ∈ allBookings, b.id ≠ B.id → b.roomId = B.roomId → b.date = B.date →
      b.status = "confirmed" →
      timesOverlap B.startTime B.endTime b.startTime b.endTime = false) :
    checkRoomAvailability allBookings B.roomId B.date B.startTime B.endTime (some B.id) = true := by
  simp only [checkRoomAvailability]
  rw [List.all_eq_true]
  intro b hmem
  rw [List.mem_filter] at hmem
  obtain ⟨hb, hcond⟩ := hmem
  simp only [Bool.and_eq_true, beq_iff_eq] at hcond
  obtain ⟨⟨hr, hd⟩, hs⟩ := hcond
  by_cases heq : b.id = B.id
  · simp [optNatTruthy, heq, hid]
  · have hno := hothers b hb heq hr hd hs
    simp [optNatTruthy, beq_iff_eq, Ne.symm heq, hno]

/-- Witness for C2: with its own id excluded, `sampleBooking`'s exact
slot re-checks as available even next to the boundary-touching
`adjacentBooking`. -/
theorem checkRoomAvailability_excludes_self_witness :
    checkRoomAvailability [sampleBooking, adjacentBooking] 1 "2024-01-10"
      "09:00" "10:00" (some 1) = true :=
  checkRoomAvailability_excludes_self [sampleBooking, adjacentBooking] sampleBooking
    (by decide) (by decide)

/-- `DatabaseStorage.getActiveRooms` (`server/storage.ts`): rooms with
`isActive = true`, ordered by name ascending. -/
def getActiveRooms (st : DbState) : List Room :=
  List.insertionSort (fun a b => strLeb a.name b.name = true) (st.rooms.filter (·.isActive))

/-- `DatabaseStorage.deleteRoom` (`server/storage.ts`): soft delete —
`update(rooms).set({ isActive: false }).where(eq(rooms.id, id))`.  No
row is removed and no other column (not even `updatedAt`) is touched. -/
def deleteRoom (st : DbState) (id : Nat) : DbState :=
  { st with
    rooms := st.rooms.map fun r =>
      if r.id == id then { r with isActive := false } else r }

/-- `DatabaseStorage.setAuthConfig` (`server/storage.ts`): first
`update(authConfig).set({ isActive: false })` over the whole table, then
insert a fresh row with the given type and config, active. -/
def setAuthConfig (st : DbState) (authType config : String) (now : Nat) : DbState :=
  { st with
    authConfigs :=
      (st.authConfigs.map fun r => { r with isActive := false }) ++
        [{ id := st.nextAuthConfigId, authType := authType, isActive := true,
           config := config, createdAt := now, updatedAt := now }],
    nextAuthConfigId := st.nextAuthConfigId + 1 }

theorem filter_isActive_deactivateAll (l : List AuthConfigRow) :
    ((l.map fun r => { r with isActive := false }).filter (·.isActive)) = [] := by
  induction l with
  | nil => rfl
  | cons a t ih => simp [List.filter, ih]

/-- C5: after `setAuthConfig`, the freshly inserted row (carrying the
given type and config) is the *only* row with `isActive = true`; every
pre-existing row survives, deactivated. -/
theorem setAuthConfig_single_active (st : DbState) (authType config : String) (now : Nat) :
    ((setAuthConfig st authType config now).authConfigs.filter (·.isActive)) =
      [{ id := st.nextAuthConfigId, authType := authType, isActive := true,
         config := config, createdAt := now, updatedAt := now }] ∧
    (setAuthConfig st authType config now).authConfigs =
      (st.authConfigs.map fun r => { r with isActive := false }) ++
        [{ id := st.nextAuthConfigId, authType := authType, isActive := true,
           config := config, createdAt := now, updatedAt := now }] := by
  refine ⟨?_, rfl⟩
  simp [setAuthConfig, List.filter_append, filter_isActive_deactivateAll]

/-- C6: `deleteRoom` removes the room from `getActiveRooms`, keeps every
other room row intact, changes nothing but `isActive` on the targeted
row, and leaves the bookings table untouched. -/
theorem deleteRoom_spec (st : DbState) (id : Nat) :
    (∀ r ∈ getActiveRooms (deleteRoom st id), r.id ≠ id) ∧
    (∀ r ∈ st.rooms, r.id ≠ id → r ∈ (deleteRoom st id).rooms) ∧
    (∀ r ∈ st.rooms, r.id = id → { r with isActive := false } ∈ (deleteRoom st id).rooms) ∧
    (deleteRoom st id).bookings = st.bookings := by
  refine ⟨?_, ?_, ?_, rfl⟩
  · intro r hr hid
    have hr' : r ∈ ((deleteRoom st id).rooms.filter (·.isActive)) :=
      (List.perm_insertionSort _ _).mem_iff.mp hr
    rw [List.mem_filter] at hr'
    obtain ⟨hmem, hact⟩ := hr'
    simp only [deleteRoom, List.mem_map] at hmem
    obtain ⟨r₀, hr₀, heq⟩ := hmem
    by_cases h0 : r₀.id = id
    · rw [if_pos (by simp [h0])] at heq
      cases heq
      simp at hact
    · rw [if_neg (by simp [h0])] at heq
      cases heq
      exact h0 hid
  · intro r hr hne
    simp only [deleteRoom, List.mem_map]
    exact ⟨r, hr, by rw [if_neg (by simp [hne])]⟩
  · intro r hr hid
    simp only [deleteRoom, List.mem_map]
    exact ⟨r, hr, by rw [if_pos (by simp [hid])]⟩

/-- An active room. -/
def roomA : Room :=
  { id := 1, name := "Apollo", floor := "1", equipment := ["tv"], isActive := true,
    createdAt := 0, updatedAt := 0 }

/-- A second active room. -/
def roomB : Room :=
  { id := 2, name := "Borealis", floor := "2", equipment := [], isActive := true,
    createdAt := 0, updatedAt := 0 }

/-- A small concrete database state. -/
def demoState : DbState :=
  { users := [], rooms := [roomA, roomB], bookings := [sampleBooking],
    authConfigs := [], nextBookingId := 3, nextAuthConfigId := 1 }

/-- Witness for C6: deactivating room 1 keeps room 2 and the bookings. -/
theorem deleteRoom_spec_witness :
    roomB ∈ (deleteRoom demoState 1).rooms ∧
      (deleteRoom demoState 1).bookings = demoState.bookings :=
  ⟨(deleteRoom_spec demoState 1).2.1 roomB (by decide) (by decide),
    (deleteRoom_spec demoState 1).2.2.2⟩

/-- JS `Math.round` on the nonnegative values produced here:
`⌊x + 1/2⌋` (halves round up). -/
def jsRound (q : ℚ) : ℤ := ⌊q + 1/2⌋

/-- The aggregate returned by `DatabaseStorage.getBookingStats`. -/
structure BookingStats where
  totalRooms : Nat
  availableRooms : Int
  totalBookingsToday : Nat
  utilizationRate : Int
  deriving DecidableEq

/-- `DatabaseStorage.getBookingStats` (`server/storage.ts`), with the
wall clock abstracted into the `today` date string and `currentTime`
time string the source derives from `new Date()`.  `availableRooms`
subtracts the number of *bookings* whose interval contains the current
time; `utilizationRate` divides today's confirmed bookings by
`totalRooms * 8` (an assumed 8-hour workday), guarded against zero
active rooms. -/
def getBookingStats (st : DbState) (today currentTime : String) : BookingStats :=
  let totalRooms := (st.rooms.filter (·.isActive)).length
  let todayBookings := st.bookings.filter fun b =>
    b.date == today && b.status == "confirmed"
  let availableRooms : Int := (totalRooms : Int) -
    (todayBookings.filter fun b =>
      strLeb b.startTime currentTime && strLtb currentTime b.endTime).length
  let utilizationRate : Int :=
    if totalRooms > 0 then
      jsRound ((todayBookings.length : ℚ) / ((totalRooms : ℚ) * 8) * 100)
    else 0
  { totalRooms := totalRooms, availableRooms := availableRooms,
    totalBookingsToday := todayBookings.length, utilizationRate := utilizationRate }

/-- Today's confirmed bookings whose half-open interval contains the
current time (the bookings the stats code counts as occupying a room). -/
def busyBookingsNow (st : DbState) (today currentTime : String) : List Booking :=
  (st.bookings.filter fun b => b.date == today && b.status == "confirmed").filter
    fun b => strLeb b.startTime currentTime && strLtb currentTime b.endTime

/-- The distinct rooms having a confirmed booking today whose half-open
interval contains the current time — the quantity the spec says
`availableRooms` subtracts. -/
def roomsBusyNow (st : DbState) (today currentTime : String) : List Nat :=
  ((busyBookingsNow st today currentTime).map (·.roomId)).dedup

/-- C4: `getBookingStats` counts active rooms, subtracts the rooms
currently occupied by a confirmed booking (valid whenever distinct
spanning bookings sit on distinct rooms, which the no-overlap invariant
guarantees), counts today's confirmed bookings, and computes the
utilization percentage over an 8-hour workday. -/
theorem getBookingStats_spec (st : DbState) (today currentTime : String)
    (hnodup : ((busyBookingsNow st today currentTime).map (·.roomId)).Nodup) :
    (getBookingStats st today currentTime).totalRooms =
      (st.rooms.filter (·.isActive)).length ∧
    (getBookingStats st today currentTime).availableRooms =
      ((st.rooms.filter (·.isActive)).length : Int) -
        (roomsBusyNow st today currentTime).length ∧
    (getBookingStats st today currentTime).totalBookingsToday =
      (st.bookings.filter fun b => b.date == today && b.status == "confirmed").length ∧
    (0 < (st.rooms.filter (·.isActive)).length →
      (getBookingStats st today currentTime).utilizationRate =
        jsRound
          (((st.bookings.filter fun b =>
              b.date == today && b.status == "confirmed").length : ℚ) /
            (((st.rooms.filter (·.isActive)).length : ℚ) * 8) * 100)) := by
  refine ⟨rfl, ?_, rfl, ?_⟩
  · have hlen : (roomsBusyNow st today currentTime).length =
        (busyBookingsNow st today currentTime).length := by
      rw [roomsBusyNow, List.dedup_eq_self.mpr hnodup, List.length_map]
    rw [hlen]
    rfl
  · intro hpos
    simp only [getBookingStats]
    rw [if_pos hpos]

/-- A confirmed 10:00–11:00 booking on room 2, same day as
`sampleBooking`. -/
def room2Booking : Booking :=
  { id := 3, title := "Sync", description := none, userId := "u1", roomId := 2,
    date := "2024-01-10", startTime := "10:00", endTime := "11:00", attendees := [],
    status := "confirmed", createdAt := 0, updatedAt := 0 }

/-- Two active rooms, one confirmed booking today. -/
def statsState : DbState :=
  { users := [], rooms := [roomA, roomB], bookings := [room2Booking],
    authConfigs := [], nextBookingId := 4, nextAuthConfigId := 1 }

/-- Witness for C4: with 2 active rooms and exactly 1 confirmed booking
spanning 10:15, `availableRooms = 1` and `utilizationRate = 6`. -/
theorem getBookingStats_spec_witness :
    (getBookingStats statsState "2024-01-10" "10:15").availableRooms = 1 ∧
    (getBookingStats statsState "2024-01-10" "10:15").utilizationRate = 6 := by
  have h := getBookingStats_spec statsState "2024-01-10" "10:15" (by decide)
  constructor
  · rw [h.2.1]
    decide
  · rw [h.2.2.2 (by decide)]
    have hb : ((statsState.bookings.filter fun b =>
        b.date == "2024-01-10" && b.status == "confirmed").length : ℚ) = 1 := by
      norm_num [show (statsState.bookings.filter fun b =>
        b.date == "2024-01-10" && b.status == "confirmed").length = 1 from by decide]
    have hr : (((statsState.rooms.filter (·.isActive)).length : ℚ)) = 2 := by
      norm_num [show (statsState.rooms.filter (·.isActive)).length = 2 from by decide]
    rw [hb, hr]
    norm_num [jsRound]

/-- C10: with zero active rooms `getBookingStats` short-circuits the
utilization computation to `0` instead of dividing by zero. -/
theorem getBookingStats_zero_active_rooms (st : DbState) (today currentTime : String)
    (h : ∀ r ∈ st.rooms, r.isActive = false) :
    (getBookingStats st today currentTime).utilizationRate = 0 := by
  have hfil : st.rooms.filter (·.isActive) = [] := by
    rw [List.filter_eq_nil_iff]
    intro r hr
    simp [h r hr]
  simp [getBookingStats, hfil]

/-- Witness for C10: a state whose only room is inactive yields
utilization 0 however many bookings exist today. -/
theorem getBookingStats_zero_active_rooms_witness :
    (getBookingStats
      { users := [], rooms := [{ roomA with isActive := false }],
        bookings := [room2Booking], authConfigs := [],
        nextBookingId := 4, nextAuthConfigId := 1 } "2024-01-10" "10:15").utilizationRate
      = 0 :=
  getBookingStats_zero_active_rooms _ "2024-01-10" "10:15" (by decide)

/-- `DatabaseStorage.getUser`: first `users` row with the given id. -/
def getUser (st : DbState) (id : String) : Option User :=
  st.users.find? (·.id == id)

/-- `DatabaseStorage.getRoom`: first `rooms` row with the given id. -/
def getRoom (st : DbState) (id : Nat) : Option Room :=
  st.rooms.find? (·.id == id)

/-- `DatabaseStorage.getBooking`: first `bookings` row with the given
id (the user/room join only decorates the row). -/
def getBooking (st : DbState) (id : Nat) : Option Booking :=
  st.bookings.find? (·.id == id)

/-- The zod-validated body of POST /api/bookings
(`insertBookingSchema`): a booking without id and timestamps; `status`
falls back to the column default `"confirmed"` when omitted. -/
structure InsertBooking where
  title : String
  description : Option String
  userId : String
  roomId : Nat
  date : String
  startTime : String
  endTime : String
  attendees : List String
  status : Option String
  deriving DecidableEq

/-- `DatabaseStorage.createBooking`: insert with the next serial id;
`createdAt`/`updatedAt` take the database default `now`. -/
def createBooking (st : DbState) (v : InsertBooking) (now : Nat) : Booking × DbState :=
  let b : Booking :=
    { id := st.nextBookingId, title := v.title, description := v.description,
      userId := v.userId, roomId := v.roomId, date := v.date,
      startTime := v.startTime, endTime := v.endTime, attendees := v.attendees,
      status := v.status.getD "confirmed", createdAt := now, updatedAt := now }
  (b, { st with bookings := st.bookings ++ [b], nextBookingId := st.nextBookingId + 1 })

/-- Outcome of one external SendGrid call (`sendBookingInvites` /
`sendBookingConfirmation` in `server/emailService.ts`): resolved true,
resolved false (failure logged inside the helper), or threw. -/
inductive EmailOutcome
  | sent
  | failed
  | threw
  deriving DecidableEq

/-- Observable email activity of a request, for the fire-and-forget
notification block. -/
inductive EmailEvent
  | invitesAttempted (outcome : EmailOutcome)
  | confirmationAttempted (outcome : EmailOutcome)
  deriving DecidableEq

/-- The notification block of POST /api/bookings (`server/routes.ts`):
runs only when `sendInvite` is set and attendees are present, looks up
the organizer and the room, sends invites then the confirmation; a
throw anywhere is caught and logged, aborting only the rest of the
block. -/
def emailDispatchLog (proceed userFound roomFound : Bool)
    (inviteOutcome confirmOutcome : EmailOutcome) : List EmailEvent :=
  if proceed then
    if userFound && roomFound then
      if inviteOutcome == EmailOutcome.threw then
        [EmailEvent.invitesAttempted inviteOutcome]
      else
        [EmailEvent.invitesAttempted inviteOutcome,
          EmailEvent.confirmationAttempted confirmOutcome]
    else []
  else []

/-- HTTP outcome of POST /api/bookings: 201 with the created booking,
409 availability conflict, or 400 zod validation failure. -/
inductive PostBookingResult
  | created (b : Booking)
  | conflict
  | invalid
  deriving DecidableEq

/-- Result, resulting store, and email activity of one request. -/
structure RouteOutput (ρ : Type) where
  result : ρ
  state : DbState
  emails : List EmailEvent
  deriving DecidableEq

/-- POST /api/bookings (`server/routes.ts`): validate (`parsed` is the
zod outcome; the route injects the session `userId` and
`attendees || []` before parsing), check availability with no
exclusion, 409 on conflict, otherwise insert, fire off notifications
(failures swallowed), and answer 201 with the new booking. -/
def postBookingsRoute (st : DbState) (userId : String)
    (parsed : Except Unit InsertBooking) (sendInvite : Bool) (attendees : List String)
    (now : Nat) (inviteOutcome confirmOutcome : EmailOutcome) :
    RouteOutput PostBookingResult :=
  match parsed with
  | Except.error _ => { result := PostBookingResult.invalid, state := st, emails := [] }
  | Except.ok v =>
    if checkRoomAvailability st.bookings v.roomId v.date v.startTime v.endTime none then
      let (booking, st') := createBooking st v now
      { result := PostBookingResult.created booking, state := st',
        emails := emailDispatchLog (sendInvite && !attendees.isEmpty)
          (getUser st userId).isSome (getRoom st v.roomId).isSome
          inviteOutcome confirmOutcome }
    else
      { result := PostBookingResult.conflict, state := st, emails := [] }

/-- C3: on an already-validated body, POST /api/bookings answers the
distinguishable conflict outcome with the store untouched when the room
is unavailable, and persists exactly one new booking answered as
created when it is available. -/
theorem postBookingsRoute_spec (st : DbState) (userId : String) (v : InsertBooking)
    (sendInvite : Bool) (attendees : List String) (now : Nat)
    (inviteOutcome confirmOutcome : EmailOutcome) :
    (checkRoomAvailability st.bookings v.roomId v.date v.startTime v.endTime none = false →
      postBookingsRoute st userId (Except.ok v) sendInvite attendees now
          inviteOutcome confirmOutcome =
        { result := PostBookingResult.conflict, state := st, emails := [] }) ∧
    (checkRoomAvailability st.bookings v.roomId v.date v.startTime v.endTime none = true →
      (postBookingsRoute st userId (Except.ok v) sendInvite attendees now
          inviteOutcome confirmOutcome).result =
        PostBookingResult.created (createBooking st v now).1 ∧
      (postBookingsRoute st userId (Except.ok v) sendInvite attendees now
          inviteOutcome confirmOutcome).state.bookings =
        st.bookings ++ [(createBooking st v now).1]) ∧
    PostBookingResult.conflict ≠ PostBookingResult.invalid := by
  refine ⟨?_, ?_, by intro h; cases h⟩
  · intro h
    simp [postBookingsRoute, h]
  · intro h
    exact ⟨by simp [postBookingsRoute, h], by simp [postBookingsRoute, h, createBooking]⟩

/-- A validated request that overlaps `sampleBooking`. -/
def overlappingRequest : InsertBooking :=
  { title := "Pairing", description := none, userId := "u2", roomId := 1,
    date := "2024-01-10", startTime := "09:30", endTime := "10:30",
    attendees := [], status := none }

/-- Witness for C3: booking 09:30–10:30 over the existing 09:00–10:00
meeting yields the conflict outcome and leaves the store unchanged. -/
theorem postBookingsRoute_spec_witness :
    postBookingsRoute demoState "u2" (Except.ok overlappingRequest) false [] 5
        EmailOutcome.sent EmailOutcome.sent =
      { result := PostBookingResult.conflict, state := demoState, emails := [] } :=
  (postBookingsRoute_spec demoState "u2" overlappingRequest false [] 5
      EmailOutcome.sent EmailOutcome.sent).1 (by decide)

/-- C9: once the booking is persisted, the email outcomes (resolved
failure or thrown error in invites or confirmation) change neither the
response nor the stored data — the answer is the same 201 with the same
booking as on email success. -/
theorem postBookingsRoute_email_fireAndForget (st : DbState) (userId : String)
    (v : InsertBooking) (sendInvite : Bool) (attendees : List String) (now : Nat)
    (io₁ co₁ io₂ co₂ : EmailOutcome)
    (havail : checkRoomAvailability st.bookings v.roomId v.date v.startTime v.endTime
      none = true) :
    (postBookingsRoute st userId (Except.ok v) sendInvite attendees now io₁ co₁).result =
      PostBookingResult.created (createBooking st v now).1 ∧
    (postBookingsRoute st userId (Except.ok v) sendInvite attendees now io₁ co₁).result =
      (postBookingsRoute st userId (Except.ok v) sendInvite attendees now io₂ co₂).result ∧
    (postBookingsRoute st userId (Except.ok v) sendInvite attendees now io₁ co₁).state =
      (postBookingsRoute st userId (Except.ok v) sendInvite attendees now io₂ co₂).state := by
  refine ⟨?_, ?_, ?_⟩ <;> simp [postBookingsRoute, havail, createBooking]

/-- A validated request touching `sampleBooking` only at the 10:00
boundary, with an attendee to notify. -/
def boundaryRequest : InsertBooking :=
  { title := "Retro", description := none, userId := "u2", roomId := 1,
    date := "2024-01-10", startTime := "10:00", endTime := "11:00",
    attendees := ["a@example.com"], status := none }

/-- Witness for C9: even when the invite send throws, the response is
the created booking. -/
theorem postBookingsRoute_email_fireAndForget_witness :
    (postBookingsRoute demoState "u2" (Except.ok boundaryRequest) true
        ["a@example.com"] 5 EmailOutcome.threw EmailOutcome.sent).result =
      PostBookingResult.created (createBooking demoState boundaryRequest 5).1 :=
  (postBookingsRoute_email_fireAndForget demoState "u2" boundaryRequest true
      ["a@example.com"] 5 EmailOutcome.threw EmailOutcome.sent
      EmailOutcome.sent EmailOutcome.sent (by decide)).1

/-- JS truthiness of an optional string field (`undefined` and `""`
are falsy). -/
def optStrTruthy : Option String → Bool
  | none => false
  | some s => s != ""

/-- JS `patchField || existingField` for string columns. -/
def jsOrStr (v : Option String) (d : String) : String :=
  if optStrTruthy v then v.getD d else d

/-- JS `patchField || existingField` for the numeric `roomId` column
(`0` falls through to the existing value). -/
def jsOrNat (v : Option Nat) (d : Nat) : Nat :=
  if optNatTruthy v then v.getD d else d

/-- The zod `.partial()`-validated body of PUT /api/bookings/:id: every
booking column optional. -/
structure BookingPatch where
  title : Option String
  description : Option (Option String)
  userId : Option String
  roomId : Option Nat
  date : Option String
  startTime : Option String
  endTime : Option String
  attendees : Option (List String)
  status : Option String
  deriving DecidableEq

/-- The drizzle `set({...booking, updatedAt: now})` spread: provided
fields override, `updatedAt` is refreshed, `id`/`createdAt` stay. -/
def applyBookingPatch (b : Booking) (p : BookingPatch) (now : Nat) : Booking :=
  { id := b.id, title := p.title.getD b.title,
    description := p.description.getD b.description,
    userId := p.userId.getD b.userId, roomId := p.roomId.getD b.roomId,
    date := p.date.getD b.date, startTime := p.startTime.getD b.startTime,
    endTime := p.endTime.getD b.endTime, attendees := p.attendees.getD b.attendees,
    status := p.status.getD b.status, createdAt := b.createdAt, updatedAt := now }

/-- `DatabaseStorage.updateBooking`: patch every row matching the id. -/
def updateBooking (st : DbState) (id : Nat) (p : BookingPatch) (now : Nat) : DbState :=
  { st with
    bookings := st.bookings.map fun b =>
      if b.id == id then applyBookingPatch b p now else b }

/-- `DatabaseStorage.deleteBooking`: hard row delete. -/
def deleteBooking (st : DbState) (id : Nat) : DbState :=
  { st with bookings := st.bookings.filter fun b => ! (b.id == id) }

/-- JS `user?.role !== "admin"` where the requester lookup may have
found nobody. -/
def notAdmin (u : Option User) : Bool :=
  match u with
  | none => true
  | some user => user.role != "admin"

/-- HTTP outcome of PUT/DELETE /api/bookings/:id. -/
inductive MutateResult
  | updated (b : Booking)
  | deleted
  | notFound
  | forbidden
  | conflict
  | invalid
  deriving DecidableEq

/-- PUT /api/bookings/:id (`server/routes.ts`): 404 when the booking is
missing, 403 unless the requester owns it or is an admin, 400 on zod
failure, then — when any of date/startTime/endTime/roomId is truthy in
the patch — an availability re-check on the merged values excluding the
booking itself, 409 on conflict, otherwise the patched row. -/
def putBookingRoute (st : DbState) (userId : String) (bookingId : Nat)
    (parsed : Except Unit BookingPatch) (now : Nat) : MutateResult × DbState :=
  let user := getUser st userId
  match getBooking st bookingId with
  | none => (MutateResult.notFound, st)
  | some existingBooking =>
    if existingBooking.userId != userId && notAdmin user then
      (MutateResult.forbidden, st)
    else
      match parsed with
      | Except.error _ => (MutateResult.invalid, st)
      | Except.ok p =>
        if optStrTruthy p.date || optStrTruthy p.startTime || optStrTruthy p.endTime ||
            optNatTruthy p.roomId then
          if checkRoomAvailability st.bookings (jsOrNat p.roomId existingBooking.roomId)
              (jsOrStr p.date existingBooking.date)
              (jsOrStr p.startTime existingBooking.startTime)
              (jsOrStr p.endTime existingBooking.endTime) (some bookingId) then
            (MutateResult.updated (applyBookingPatch existingBooking p now),
              updateBooking st bookingId p now)
          else (MutateResult.conflict, st)
        else
          (MutateResult.updated (applyBookingPatch existingBooking p now),
            updateBooking st bookingId p now)

/-- DELETE /api/bookings/:id (`server/routes.ts`): 404 when missing,
403 unless owner or admin, otherwise hard delete and 204. -/
def deleteBookingRoute (st : DbState) (userId : String) (bookingId : Nat) :
    MutateResult × DbState :=
  let user := getUser st userId
  match getBooking st bookingId with
  | none => (MutateResult.notFound, st)
  | some existingBooking =>
    if existingBooking.userId != userId && notAdmin user then
      (MutateResult.forbidden, st)
    else
      (MutateResult.deleted, deleteBooking st bookingId)

/-- C8: a requester who is neither the booking's owner nor an admin
gets 403 from both PUT and DELETE /api/bookings/:id, with the store
unchanged. -/
theorem bookingMutation_owner_or_admin (st : DbState) (userId : String) (bookingId : Nat)
    (parsed : Except Unit BookingPatch) (now : Nat) (existing : Booking)
    (hfound : getBooking st bookingId = some existing)
    (hnotOwner : existing.userId ≠ userId)
    (hnotAdmin : ∀ u, getUser st userId = some u → u.role ≠ "admin") :
    putBookingRoute st userId bookingId parsed now = (MutateResult.forbidden, st) ∧
    deleteBookingRoute st userId bookingId = (MutateResult.forbidden, st) := by
  have hna : notAdmin (getUser st userId) = true := by
    cases hu : getUser st userId with
    | none => rfl
    | some u => simpa [notAdmin, bne_iff_ne] using hnotAdmin u hu
  constructor
  · simp [putBookingRoute, hfound, hna, bne_iff_ne, hnotOwner]
  · simp [deleteBookingRoute, hfound, hna, bne_iff_ne, hnotOwner]

/-- Witness for C8: user "u2" (not in the users table, hence not admin)
may not mutate `sampleBooking`, which "u1" owns. -/
theorem bookingMutation_owner_or_admin_witness :
    putBookingRoute demoState "u2" 1 (Except.error ()) 5 =
      (MutateResult.forbidden, demoState) ∧
    deleteBookingRoute demoState "u2" 1 = (MutateResult.forbidden, demoState) :=
  bookingMutation_owner_or_admin demoState "u2" 1 (Except.error ()) 5 sampleBooking
    (by decide) (by decide)
    (by
      intro u hu
      exact Option.noConfusion hu)

/-- An LDAP directory entry as the search delivers it
(`entry.object`); attributes may be absent. -/
structure LdapEntry where
  dn : String
  uid : Option String
  mail : Option String
  givenName : Option String
  sn : Option String
  deriving DecidableEq

/-- Behaviour of the external LDAP server (and of the local upsert)
during one authentication attempt: what each step of the
bind–search–rebind flow does. -/
structure LdapWorld where
  serviceBindOk : Bool
  searchCallbackOk : Bool
  searchStreamError : Bool
  searchResult : Option LdapEntry
  rebindOk : String → String → Bool
  upsertOk : Bool

/-- The ways `authenticateLDAP` throws / rejects. -/
inductive LdapError
  | notConfigured
  | serviceBindError
  | searchError
  | searchStreamError
  | upsertError
  deriving DecidableEq

/-- The local shadow user built on successful LDAP authentication
(`userEntry.uid || username`, `userEntry.mail || username@company.com`,
empty-string name fallbacks, role user, authType ldap). -/
def ldapShadowUser (entry : LdapEntry) (username : String) (now : Nat) : User :=
  { id := jsOrStr entry.uid username, username := some username,
    email := some (jsOrStr entry.mail (username ++ "@company.com")),
    password := none,
    firstName := some (jsOrStr entry.givenName ""),
    lastName := some (jsOrStr entry.sn ""),
    profileImageUrl := none, role := "user", authType := "ldap",
    createdAt := now, updatedAt := now }

/-- `DatabaseStorage.createOrUpdateUser`: insert, or on id conflict
overwrite the provided columns refreshing `updatedAt`; the
`password`/`profileImageUrl`/`createdAt` columns of an existing row
survive an update since the LDAP upsert does not provide them. -/
def createOrUpdateUser (us : List User) (u : User) (now : Nat) : List User :=
  if us.any (·.id == u.id) then
    us.map fun x =>
      if x.id == u.id then
        { u with
            password := x.password
            profileImageUrl := x.profileImageUrl
            createdAt := x.createdAt
            updatedAt := now }
      else x
  else us ++ [u]

/-- `AuthService.authenticateLDAP`: throw `notConfigured` unless the
active auth config is LDAP; reject when the service-account bind, the
search callback, the search stream, or the final upsert errors; resolve
`null` when no entry matches or the rebind as the entry's DN with the
supplied password fails; on success upsert and resolve the shadow user.
Returns the users table next to the outcome; only success touches it. -/
def authenticateLDAP (activeConfig : Option AuthConfigRow) (w : LdapWorld)
    (us : List User) (username password : String) (now : Nat) :
    Except LdapError (Option User) × List User :=
  match activeConfig with
  | none => (Except.error LdapError.notConfigured, us)
  | some cfg =>
    if cfg.authType != "ldap" then (Except.error LdapError.notConfigured, us)
    else if !w.serviceBindOk then (Except.error LdapError.serviceBindError, us)
    else if !w.searchCallbackOk then (Except.error LdapError.searchError, us)
    else if w.searchStreamError then (Except.error LdapError.searchStreamError, us)
    else
      match w.searchResult with
      | none => (Except.ok none, us)
      | some entry =>
        if !w.rebindOk entry.dn password then (Except.ok none, us)
        else if !w.upsertOk then (Except.error LdapError.upsertError, us)
        else
          (Except.ok (some (ldapShadowUser entry username now)),
            createOrUpdateUser us (ldapShadowUser entry username now) now)

/-- An active LDAP auth config row. -/
def ldapConfig : AuthConfigRow :=
  { id := 1, authType := "ldap", isActive := true, config := "{}",
    createdAt := 0, updatedAt := 0 }

/-- A world in which the service-account bind fails. -/
def bindFailWorld : LdapWorld :=
  { serviceBindOk := false, searchCallbackOk := true, searchStreamError := false,
    searchResult := none, rebindOk := fun _ _ => true, upsertOk := true }

/-- C7 counterexample: with LDAP active and the service-account bind
failing, `authenticateLDAP` rejects (the promise is rejected with the
bind error) instead of resolving null, so the claim that every
credential-path step failure — including a service-account bind
error — yields null is false on the code. -/
theorem authenticateLDAP_serviceBind_rejects :
    (authenticateLDAP (some ldapConfig) bindFailWorld [] "alice" "pw" 0).1 =
      Except.error LdapError.serviceBindError ∧
    (authenticateLDAP (some ldapConfig) bindFailWorld [] "alice" "pw" 0).1 ≠
      Except.ok none := by
  constructor
  · rfl
  · intro h
    exact Except.noConfusion h

/-- C7 (amended): configuration errors (no active config, or an active
config whose type is not ldap) throw, service-account bind errors and
search errors reject, an absent directory entry or a failed rebind as
the found entry's DN resolves null with the users table untouched, and
full success upserts and returns a shadow user tagged authType ldap. -/
theorem authenticateLDAP_outcomes (cfg : AuthConfigRow) (w : LdapWorld)
    (us : List User) (username password : String) (now : Nat)
    (hldap : cfg.authType = "ldap") :
    (w.serviceBindOk = false →
      authenticateLDAP (some cfg) w us username password now =
        (Except.error LdapError.serviceBindError, us)) ∧
    (w.serviceBindOk = true → w.searchCallbackOk = false →
      authenticateLDAP (some cfg) w us username password now =
        (Except.error LdapError.searchError, us)) ∧
    (w.serviceBindOk = true → w.searchCallbackOk = true → w.searchStreamError = false →
      w.searchResult = none →
      authenticateLDAP (some cfg) w us username password now = (Except.ok none, us)) ∧
    (∀ entry, w.serviceBindOk = true → w.searchCallbackOk = true →
      w.searchStreamError = false → w.searchResult = some entry →
      w.rebindOk entry.dn password = false →
      authenticateLDAP (some cfg) w us username password now = (Except.ok none, us)) ∧
    (∀ entry, w.serviceBindOk = true → w.searchCallbackOk = true →
      w.searchStreamError = false → w.searchResult = some entry →
      w.rebindOk entry.dn password = true → w.upsertOk = true →
      authenticateLDAP (some cfg) w us username password now =
        (Except.ok (some (ldapShadowUser entry username now)),
          createOrUpdateUser us (ldapShadowUser entry username now) now) ∧
      (ldapShadowUser entry username now).authType = "ldap") ∧
    (authenticateLDAP none w us username password now =
      (Except.error LdapError.notConfigured, us)) ∧
    (∀ c : AuthConfigRow, c.authType ≠ "ldap" →
      authenticateLDAP (some c) w us username password now =
        (Except.error LdapError.notConfigured, us)) := by
  refine ⟨?_, ?_, ?_, ?_, ?_, rfl, ?_⟩
  · intro h1
    simp [authenticateLDAP, hldap, h1]
  · intro h1 h2
    simp [authenticateLDAP, hldap, h1, h2]
  · intro h1 h2 h3 h4
    simp [authenticateLDAP, hldap, h1, h2, h3, h4]
  · intro entry h1 h2 h3 h4 h5
    simp [authenticateLDAP, hldap, h1, h2, h3, h4, h5]
  · intro entry h1 h2 h3 h4 h5 h6
    refine ⟨?_, rfl⟩
    simp [authenticateLDAP, hldap, h1, h2, h3, h4, h5, h6]
  · intro c hc
    simp [authenticateLDAP, bne_iff_ne, hc]

/-- A directory entry for alice. -/
def sampleEntry : LdapEntry :=
  { dn := "uid=alice,dc=example", uid := some "alice",
    mail := some "alice@example.com", givenName := some "Alice", sn := some "L" }

/-- A world in which every LDAP step succeeds for alice. -/
def okWorld : LdapWorld :=
  { serviceBindOk := true, searchCallbackOk := true, searchStreamError := false,
    searchResult := some sampleEntry, rebindOk := fun _ _ => true, upsertOk := true }

/-- Witness for C7 (amended): a fully successful flow returns the
upserted ldap-tagged shadow user. -/
theorem authenticateLDAP_outcomes_witness :
    authenticateLDAP (some ldapConfig) okWorld [] "alice" "pw" 7 =
      (Except.ok (some (ldapShadowUser sampleEntry "alice" 7)),
        createOrUpdateUser [] (ldapShadowUser sampleEntry "alice" 7) 7) :=
  ((authenticateLDAP_outcomes ldapConfig okWorld [] "alice" "pw" 7 rfl).2.2.2.2.1
    sampleEntry rfl rfl rfl rfl rfl rfl).1
